import Mathlib

/-!
Verification development for the media-sessions engine behind the C boundary
declared in `src/c-api/media_sessions_c.h`.

The repository ships the boundary header only; the engine components it fronts
(Session Normalizer, Session Arbiter, Change Detector / Debouncer, Session
Engine facade, Boundary Adapter) are modelled here from the specification.
Struct and enum layouts are taken from the header itself.
-/

/-- Playback status codes, from the header enum `MediaPlaybackStatus`
(lines 46–51 of `media_sessions_c.h`). -/
inductive MediaPlaybackStatus where
  | playing
  | paused
  | stopped
  | transitioning
deriving DecidableEq, Repr

/-- The numeric codes the header assigns to `MediaPlaybackStatus`:
PLAYING=0, PAUSED=1, STOPPED=2, TRANSITIONING=3. -/
def MediaPlaybackStatus.toCode : MediaPlaybackStatus → Nat
  | .playing => 0
  | .paused => 1
  | .stopped => 2
  | .transitioning => 3

/-- Repeat mode codes, from the header enum `MediaRepeatMode`. -/
inductive MediaRepeatMode where
  | none
  | one
  | all
deriving DecidableEq, Repr

/-- Result codes, from the header enum `MediaResult`
(OK=0, ERROR=1, NO_SESSION=2, NOT_SUPPORTED=3, TIMEOUT=4, INVALID_ARG=5). -/
inductive MediaResult where
  | ok
  | error
  | noSession
  | notSupported
  | timeout
  | invalidArg
deriving DecidableEq, Repr

/-- The numeric codes the header assigns to `MediaResult`. -/
def MediaResult.toCode : MediaResult → Nat
  | .ok => 0
  | .error => 1
  | .noSession => 2
  | .notSupported => 3
  | .timeout => 4
  | .invalidArg => 5

/-- Modelled from the spec: the canonical `MediaInfo` snapshot (§3).  The
engine-internal model is missing from `src/`; fields follow the spec's data
model: optional text fields, non-negative durations in seconds, playback
status, artwork as an opaque byte sequence, optional positive track/disc
numbers, optional genre, optional signed year, optional URLs.  Timestamps and
durations are naturals (milliseconds/seconds); bytes are naturals. -/
structure MediaInfo where
  title : Option String
  artist : Option String
  album : Option String
  duration : Nat
  position : Nat
  playbackStatus : MediaPlaybackStatus
  artwork : List Nat
  trackNumber : Option Nat
  discNumber : Option Nat
  genre : Option String
  year : Option Int
  sourceUrl : Option String
  thumbnailUrl : Option String
deriving DecidableEq, Repr

/-- Modelled from the spec: `hasArtwork` is the spec-level derived flag,
`hasArtwork == (artwork is non-empty)` (§3). -/
def MediaInfo.hasArtwork (m : MediaInfo) : Bool :=
  decide (m.artwork ≠ [])

/-- The boundary struct `CMediaInfo`, from the header (lines 109–125).
Pointer fields become `Option`/lists: `char*` text fields are nullable
(`Option String`), `artwork`/`artwork_len` a byte list with its length,
`track_number`/`disc_number` plain unsigned integers, `year` a plain signed
integer — the header provides a presence flag (`has_artwork`) for artwork
only, and none for track, disc or year. -/
structure CMediaInfo where
  title : Option String
  artist : Option String
  album : Option String
  duration_secs : Nat
  position_secs : Nat
  playback_status : MediaPlaybackStatus
  has_artwork : Bool
  artwork_len : Nat
  artwork : List Nat
  track_number : Nat
  disc_number : Nat
  genre : Option String
  year : Int
  url : Option String
  thumbnail_url : Option String
deriving DecidableEq, Repr

/-- Modelled from the spec: the Boundary Adapter's conversion of an internal
snapshot into the boundary struct (§2 item 6, §6).  Payloads are deep-copied
(value semantics here); `has_artwork` is set per the §3 invariant; the header
struct has no presence flags for track, disc or year, so absent ones can only
map to a numeric default (the year theorems below examine this limitation). -/
def toCMediaInfo (m : MediaInfo) : CMediaInfo :=
  { title := m.title
    artist := m.artist
    album := m.album
    duration_secs := m.duration
    position_secs := m.position
    playback_status := m.playbackStatus
    has_artwork := decide (m.artwork ≠ [])
    artwork_len := m.artwork.length
    artwork := m.artwork
    track_number := m.trackNumber.getD 0
    disc_number := m.discNumber.getD 0
    genre := m.genre
    year := m.year.getD 0
    url := m.sourceUrl
    thumbnail_url := m.thumbnailUrl }

/-- Modelled from the spec: a `SessionKey` (§3) identifies one OS-level
session by its owning application's identifier — at the boundary a C string,
modelled as its byte sequence, compared lexicographically (strcmp order). -/
abbrev SessionKey : Type := List Nat

/-- Lexicographic strict order on session keys, byte by byte: a shorter key
precedes any extension of it. -/
def keyLtb : SessionKey → SessionKey → Bool
  | [], [] => false
  | [], _ :: _ => true
  | _ :: _, [] => false
  | a :: as, b :: bs => decide (a < b) || (decide (a = b) && keyLtb as bs)

/-- Modelled from the spec: `TrackedSession` (§3): key, last emitted snapshot,
its timestamp, and the owning backend id. -/
structure TrackedSession where
  key : SessionKey
  lastEmitted : MediaInfo
  lastEmittedAt : Nat
  backend : Nat
deriving DecidableEq, Repr

/-- Modelled from the spec: `EngineState` (§3): the tracked-session map
(association list keyed by `key`), the optional active key, and the debounce
window in milliseconds. -/
structure EngineState where
  sessions : List TrackedSession
  activeKey : Option SessionKey
  debounceWindow : Nat
deriving DecidableEq, Repr

/-- Modelled from the spec: the Session Arbiter's rank of a playback status
(§4.3): Playing=0, Transitioning=1, Paused=2, Stopped=3; lower rank wins. -/
def statusRank : MediaPlaybackStatus → Nat
  | .playing => 0
  | .transitioning => 1
  | .paused => 2
  | .stopped => 3

/-- Modelled from the spec: the Arbiter's strict priority order on candidates
(§4.3): rank by playback status (lower wins), tie-break by most recent
`lastEmittedAt` (newer wins), final tie-break by lexicographic key order. -/
def sessionBefore (a b : TrackedSession) : Prop :=
  statusRank a.lastEmitted.playbackStatus < statusRank b.lastEmitted.playbackStatus
  ∨ (statusRank a.lastEmitted.playbackStatus = statusRank b.lastEmitted.playbackStatus
     ∧ (b.lastEmittedAt < a.lastEmittedAt
        ∨ (a.lastEmittedAt = b.lastEmittedAt ∧ keyLtb a.key b.key = true)))

instance (a b : TrackedSession) : Decidable (sessionBefore a b) := by
  unfold sessionBefore; exact inferInstance

/-- Modelled from the spec: keep the higher-priority of two candidates. -/
def pickBetter (a b : TrackedSession) : TrackedSession :=
  if sessionBefore b a then b else a

/-- Modelled from the spec: `selectActive` on the tracked-session list,
returning the chosen session (§4.3).  Returns `none` on the empty map. -/
def selectActiveSession : List TrackedSession → Option TrackedSession
  | [] => none
  | s :: rest => some (rest.foldl pickBetter s)

/-- Modelled from the spec: `selectActive(sessions) → optional SessionKey`
(§4.3). -/
def selectActive (l : List TrackedSession) : Option SessionKey :=
  (selectActiveSession l).map (·.key)

/-- Modelled from the spec: two snapshots differ only in position/duration —
a pure playhead advance (§4.2): every field other than `position` and
`duration` agrees. -/
def onlyPlayheadDiff (a b : MediaInfo) : Prop :=
  a.title = b.title ∧ a.artist = b.artist ∧ a.album = b.album
  ∧ a.playbackStatus = b.playbackStatus ∧ a.artwork = b.artwork
  ∧ a.trackNumber = b.trackNumber ∧ a.discNumber = b.discNumber
  ∧ a.genre = b.genre ∧ a.year = b.year
  ∧ a.sourceUrl = b.sourceUrl ∧ a.thumbnailUrl = b.thumbnailUrl

instance (a b : MediaInfo) : Decidable (onlyPlayheadDiff a b) := by
  unfold onlyPlayheadDiff; exact inferInstance

/-- Modelled from the spec: the Debouncer's `shouldEmit(key, newInfo, now)`
(§4.2): suppress exactly when a previous emission for `key` exists,
`now - lastEmittedAt(key) < debounceWindow`, and the only differences from
`lastEmitted(key)` are position/duration. -/
def shouldEmit (st : EngineState) (key : SessionKey) (newInfo : MediaInfo) (now : Nat) : Bool :=
  match st.sessions.find? (fun s => s.key == key) with
  | none => true
  | some s =>
      !(decide (now - s.lastEmittedAt < st.debounceWindow)
        && decide (onlyPlayheadDiff newInfo s.lastEmitted))

/-- Modelled from the spec: update the tracked-session map on acceptance,
replacing the entry for `key` (or inserting a fresh one, backend id 0). -/
def updateSessions : List TrackedSession → SessionKey → MediaInfo → Nat → List TrackedSession
  | [], key, info, now => [⟨key, info, now, 0⟩]
  | s :: rest, key, info, now =>
      if s.key = key then { s with lastEmitted := info, lastEmittedAt := now } :: rest
      else s :: updateSessions rest key info now

/-- Modelled from the spec: the Debouncer's `record(key, newInfo, now)` on
acceptance (§4.2). -/
def recordEmission (st : EngineState) (key : SessionKey) (info : MediaInfo) (now : Nat) : EngineState :=
  { st with sessions := updateSessions st.sessions key info now }

/-- Modelled from the spec: one snapshot submission through the Debouncer:
emit-and-record when `shouldEmit`, otherwise suppress and leave the state
untouched.  The boolean reports whether a change was emitted. -/
def submit (st : EngineState) (key : SessionKey) (info : MediaInfo) (now : Nat) :
    Bool × EngineState :=
  if shouldEmit st key info now then (true, recordEmission st key info now)
  else (false, st)

/-- Modelled from the spec: the engine's handling of one backend snapshot
notification (§2 data flow, §4.4): debounce, record on acceptance, and
re-run arbitration on every accepted change. -/
def engineSubmit (st : EngineState) (key : SessionKey) (info : MediaInfo) (now : Nat) :
    EngineState :=
  if shouldEmit st key info now then
    let st' := recordEmission st key info now
    { st' with activeKey := selectActive st'.sessions }
  else st

/-- Modelled from the spec: the engine's currently active tracked session:
the session the `activeKey` designates, if any. -/
def activeSession (st : EngineState) : Option TrackedSession :=
  st.activeKey.bind (fun k => st.sessions.find? (fun s => s.key == k))

/-- Modelled from the spec: `current() → optional MediaInfo` (§4.4): the
last-accepted snapshot of the active session, or absent if none. -/
def current (st : EngineState) : Option MediaInfo :=
  (activeSession st).map (·.lastEmitted)

/-- Modelled from the spec: `media_sessions_c_current` at the boundary
(header lines 170–171): NULL (`none`) when no session, otherwise a
caller-owned copy of the current snapshot converted by the adapter. -/
def media_sessions_c_current (st : EngineState) : Option CMediaInfo :=
  (current st).map toCMediaInfo

/-- Modelled from the spec: the control operations of the boundary surface
(§6). -/
inductive ControlOp where
  | play
  | pause
  | playPause
  | stop
  | next
  | previous
  | seek
  | setVolume
  | setRepeatMode
  | setShuffle
deriving DecidableEq, Repr

/-- Modelled from the spec: the Backend Provider contract (§4.5): a
capability flag per control, and whether the backend acknowledges the
control within the bounded wait. -/
structure BackendModel where
  supports : ControlOp → Bool
  acks : ControlOp → Bool

/-- Modelled from the spec: routing a control call (§4.4): `NoSession` when
no session is active; `NotSupported` when the owning backend lacks the
capability; `Timeout` when it does not acknowledge within the bound;
otherwise `Ok`.  Control calls never mutate the engine state directly —
state transitions are driven by backend notifications (§4.4). -/
def routeControl (be : BackendModel) (op : ControlOp) (st : EngineState) :
    MediaResult × EngineState :=
  match activeSession st with
  | none => (.noSession, st)
  | some _ =>
      if be.supports op then
        (if be.acks op then (.ok, st) else (.timeout, st))
      else (.notSupported, st)

/-- Modelled from the spec: `media_sessions_c_play` (header lines 212–213). -/
def media_sessions_c_play (be : BackendModel) (st : EngineState) : MediaResult × EngineState :=
  routeControl be .play st

/-- Modelled from the spec: `media_sessions_c_pause`. -/
def media_sessions_c_pause (be : BackendModel) (st : EngineState) : MediaResult × EngineState :=
  routeControl be .pause st

/-- Modelled from the spec: `media_sessions_c_play_pause`. -/
def media_sessions_c_play_pause (be : BackendModel) (st : EngineState) :
    MediaResult × EngineState :=
  routeControl be .playPause st

/-- Modelled from the spec: `media_sessions_c_stop`. -/
def media_sessions_c_stop (be : BackendModel) (st : EngineState) : MediaResult × EngineState :=
  routeControl be .stop st

/-- Modelled from the spec: `media_sessions_c_next`. -/
def media_sessions_c_next (be : BackendModel) (st : EngineState) : MediaResult × EngineState :=
  routeControl be .next st

/-- Modelled from the spec: `media_sessions_c_previous`. -/
def media_sessions_c_previous (be : BackendModel) (st : EngineState) :
    MediaResult × EngineState :=
  routeControl be .previous st

/-- Modelled from the spec: `media_sessions_c_seek` (header lines 261–262);
per-backend position validation is part of the backend contract and abstracted
into the backend model. -/
def media_sessions_c_seek (be : BackendModel) (st : EngineState) (pos : Nat) :
    MediaResult × EngineState :=
  routeControl be .seek st

/-- Modelled from the spec: `media_sessions_c_set_volume` (header lines
274–275): `level` constrained to [0.0, 1.0]; out-of-range values fail with
`InvalidArgument` before any state mutation or backend call (§4.4, §7).
The level is modelled as an exact rational. -/
def media_sessions_c_set_volume (be : BackendModel) (st : EngineState) (volume : ℚ) :
    MediaResult × EngineState :=
  if volume < 0 ∨ 1 < volume then (.invalidArg, st)
  else routeControl be .setVolume st

/-- Modelled from the spec: `media_sessions_c_set_repeat_mode`. -/
def media_sessions_c_set_repeat_mode (be : BackendModel) (st : EngineState)
    (mode : MediaRepeatMode) : MediaResult × EngineState :=
  routeControl be .setRepeatMode st

/-- Modelled from the spec: `media_sessions_c_set_shuffle`. -/
def media_sessions_c_set_shuffle (be : BackendModel) (st : EngineState) (enabled : Bool) :
    MediaResult × EngineState :=
  routeControl be .setShuffle st

/-- Modelled from the spec: the process-wide handle table (§3): each handle
references its own `EngineState`; handles are fully independent. -/
def ProcState : Type := Nat → Option EngineState

/-- Modelled from the spec: a state-mutating operation performed through one
handle touches only the `EngineState` that handle references. -/
def applyOnHandle (p : ProcState) (h : Nat) (f : EngineState → EngineState) : ProcState :=
  fun h' => if h' = h then Option.map f (p h') else p h'

/-- Modelled from the spec: run a sequence of operations through one handle. -/
def runOps (p : ProcState) (h : Nat) : List (EngineState → EngineState) → ProcState
  | [] => p
  | f :: fs => runOps (applyOnHandle p h f) h fs

/-- Modelled from the spec: a query through a handle reads only the
`EngineState` that handle references. -/
def queryOnHandle (p : ProcState) (h : Nat) (q : EngineState → Option MediaInfo) :
    Option (Option MediaInfo) :=
  Option.map q (p h)

/-- Modelled from the spec: the fixed closed set of platform variants (§9). -/
inductive Platform where
  | windows
  | linux
  | macos
  | unknown
deriving DecidableEq, Repr

/-- Modelled from the spec: the static platform-name constant the header
documents (lines 306–311): "windows", "linux", "macos", or "unknown". -/
def platformName : Platform → String
  | .windows => "windows"
  | .linux => "linux"
  | .macos => "macos"
  | .unknown => "unknown"

/-- Modelled from the spec: `media_sessions_c_platform` (header lines
310–311): a process-lifetime constant; the call index is ignored, modelling
that every call returns the same static string. -/
def media_sessions_c_platform (p : Platform) (call : Nat) : String :=
  platformName p

/-- Replace only the `year` field of a snapshot. -/
def setYear (m : MediaInfo) (y : Option Int) : MediaInfo :=
  { m with year := y }

/-- Zero out the `year` field of a boundary struct, isolating the non-year
content. -/
def dropYearC (c : CMediaInfo) : CMediaInfo :=
  { c with year := 0 }

/-- A boundary adapter encodes the year only in the `year` field of
`CMediaInfo`: the rest of its output does not depend on the input's year. -/
def yearOblivious (toC : MediaInfo → CMediaInfo) : Prop :=
  ∀ m y₁ y₂, dropYearC (toC (setYear m y₁)) = dropYearC (toC (setYear m y₂))

/-- A boundary adapter reports every known year verbatim in the `year`
field, as the spec requires (no misreporting of a reported year, §4.1). -/
def yearFaithful (toC : MediaInfo → CMediaInfo) : Prop :=
  ∀ m y, (toC (setYear m (some y))).year = y

/-- The claim's content at the boundary: some year-oblivious, year-faithful
adapter together with a reader of `CMediaInfo` lets the caller observe
whether the year was absent — the explicit presence information the spec
says crosses the boundary (§3, §9). -/
def yearAbsenceObservable : Prop :=
  ∃ toC : MediaInfo → CMediaInfo, ∃ hasYear : CMediaInfo → Bool,
    yearOblivious toC ∧ yearFaithful toC ∧ ∀ m, hasYear (toC m) = m.year.isSome

/-- A concrete base snapshot used to instantiate counterexamples. -/
def baseInfo : MediaInfo :=
  { title := some "A"
    artist := some "B"
    album := none
    duration := 100
    position := 0
    playbackStatus := .playing
    artwork := []
    trackNumber := none
    discNumber := none
    genre := none
    year := none
    sourceUrl := none
    thumbnailUrl := none }

/- ## Order lemmas for the Session Arbiter -/

lemma keyLtb_irrefl : ∀ k : SessionKey, keyLtb k k = false
  | [] => rfl
  | a :: as => by simp [keyLtb, keyLtb_irrefl as]

lemma keyLtb_trans : ∀ (a b c : SessionKey),
    keyLtb a b = true → keyLtb b c = true → keyLtb a c = true := by
  intro a
  induction a with
  | nil =>
      intro b c hab hbc
      cases b with
      | nil => simp [keyLtb] at hab
      | cons y ys =>
          cases c with
          | nil => simp [keyLtb] at hbc
          | cons z zs => simp [keyLtb]
  | cons x xs ih =>
      intro b c hab hbc
      cases b with
      | nil => simp [keyLtb] at hab
      | cons y ys =>
          cases c with
          | nil => simp [keyLtb] at hbc
          | cons z zs =>
              simp only [keyLtb, Bool.or_eq_true, Bool.and_eq_true,
                decide_eq_true_eq] at hab hbc ⊢
              rcases hab with h1 | ⟨e1, r1⟩ <;> rcases hbc with h2 | ⟨e2, r2⟩
              · exact Or.inl (by omega)
              · exact Or.inl (by omega)
              · exact Or.inl (by omega)
              · exact Or.inr ⟨by omega, ih ys zs r1 r2⟩

lemma keyLtb_total_eq : ∀ (a b : SessionKey),
    keyLtb a b = false → keyLtb b a = false → a = b := by
  intro a
  induction a with
  | nil =>
      intro b h1 h2
      cases b with
      | nil => rfl
      | cons y ys => simp [keyLtb] at h1
  | cons x xs ih =>
      intro b h1 h2
      cases b with
      | nil => simp [keyLtb] at h2
      | cons y ys =>
          simp only [keyLtb, Bool.or_eq_false_iff, Bool.and_eq_false_iff,
            decide_eq_false_iff_not] at h1 h2
          have hxy : x = y := by
            have := h1.1
            have := h2.1
            omega
          subst hxy
          rcases h1.2 with h | hxs
          · exact absurd rfl h
          · rcases h2.2 with h | hys
            · exact absurd rfl h
            · rw [ih ys hxs hys]

lemma sessionBefore_irrefl (a : TrackedSession) : ¬ sessionBefore a a := by
  unfold sessionBefore
  intro h
  rcases h with h | ⟨_, h | ⟨_, h⟩⟩
  · omega
  · omega
  · simp [keyLtb_irrefl] at h

lemma sessionBefore_trans {a b c : TrackedSession}
    (hab : sessionBefore a b) (hbc : sessionBefore b c) : sessionBefore a c := by
  unfold sessionBefore at *
  rcases hab with h1 | ⟨e1, h1 | ⟨f1, k1⟩⟩ <;>
    rcases hbc with h2 | ⟨e2, h2 | ⟨f2, k2⟩⟩
  · exact Or.inl (by omega)
  · exact Or.inl (by omega)
  · exact Or.inl (by omega)
  · exact Or.inl (by omega)
  · exact Or.inr ⟨by omega, Or.inl (by omega)⟩
  · exact Or.inr ⟨by omega, Or.inl (by omega)⟩
  · exact Or.inl (by omega)
  · exact Or.inr ⟨by omega, Or.inl (by omega)⟩
  · exact Or.inr ⟨by omega, Or.inr ⟨by omega, keyLtb_trans _ _ _ k1 k2⟩⟩

lemma sessionBefore_tight {a b : TrackedSession}
    (h1 : ¬ sessionBefore a b) (h2 : ¬ sessionBefore b a) :
    statusRank a.lastEmitted.playbackStatus = statusRank b.lastEmitted.playbackStatus
    ∧ a.lastEmittedAt = b.lastEmittedAt ∧ a.key = b.key := by
  unfold sessionBefore at h1 h2
  rcases Nat.lt_trichotomy (statusRank a.lastEmitted.playbackStatus)
      (statusRank b.lastEmitted.playbackStatus) with hr | hr | hr
  · exact absurd (Or.inl hr) h1
  · rcases Nat.lt_trichotomy a.lastEmittedAt b.lastEmittedAt with ht | ht | ht
    · exact absurd (Or.inr ⟨hr.symm, Or.inl ht⟩) h2
    · by_cases hk : keyLtb a.key b.key = true
      · exact absurd (Or.inr ⟨hr, Or.inr ⟨ht, hk⟩⟩) h1
      · by_cases hk2 : keyLtb b.key a.key = true
        · exact absurd (Or.inr ⟨hr.symm, Or.inr ⟨ht.symm, hk2⟩⟩) h2
        · have hkf : keyLtb a.key b.key = false := by
            revert hk; cases keyLtb a.key b.key <;> simp
          have hkf2 : keyLtb b.key a.key = false := by
            revert hk2; cases keyLtb b.key a.key <;> simp
          exact ⟨hr, ht, keyLtb_total_eq _ _ hkf hkf2⟩
    · exact absurd (Or.inr ⟨hr, Or.inl ht⟩) h1
  · exact absurd (Or.inl hr) h2

lemma sessionBefore_congr {a b c : TrackedSession}
    (hr : statusRank a.lastEmitted.playbackStatus = statusRank b.lastEmitted.playbackStatus)
    (ht : a.lastEmittedAt = b.lastEmittedAt) (hk : a.key = b.key) :
    sessionBefore a c ↔ sessionBefore b c := by
  unfold sessionBefore
  rw [hr, ht, hk]

lemma foldl_pickBetter_spec (l : List TrackedSession) (acc : TrackedSession) :
    (l.foldl pickBetter acc = acc ∨ l.foldl pickBetter acc ∈ l)
    ∧ ¬ sessionBefore acc (l.foldl pickBetter acc)
    ∧ ∀ t ∈ l, ¬ sessionBefore t (l.foldl pickBetter acc) := by
  induction l generalizing acc with
  | nil =>
      refine ⟨Or.inl rfl, sessionBefore_irrefl acc, ?_⟩
      intro t ht
      exact absurd ht (List.not_mem_nil t)
  | cons x rest ih =>
      obtain ⟨hmem, hacc', hrest⟩ := ih (pickBetter acc x)
      have hres : (x :: rest).foldl pickBetter acc = rest.foldl pickBetter (pickBetter acc x) :=
        rfl
      rw [hres]
      set r := rest.foldl pickBetter (pickBetter acc x) with hr
      by_cases hx : sessionBefore x acc
      · have hpb : pickBetter acc x = x := by unfold pickBetter; simp [hx]
        rw [hpb] at hmem hacc'
        refine ⟨?_, ?_, ?_⟩
        · rcases hmem with h | h
          · exact Or.inr (h ▸ List.mem_cons_self x rest)
          · exact Or.inr (List.mem_cons_of_mem x h)
        · intro hca
          exact hacc' (sessionBefore_trans hx hca)
        · intro t ht
          rcases List.mem_cons.mp ht with h | h
          · exact h ▸ hacc'
          · exact hrest t h
      · have hpb : pickBetter acc x = acc := by unfold pickBetter; simp [hx]
        rw [hpb] at hmem hacc'
        refine ⟨?_, hacc', ?_⟩
        · rcases hmem with h | h
          · exact Or.inl h
          · exact Or.inr (List.mem_cons_of_mem x h)
        · intro t ht
          rcases List.mem_cons.mp ht with h | h
          · subst h
            intro htr
            by_cases hax : sessionBefore acc t
            · exact hacc' (sessionBefore_trans hax htr)
            · obtain ⟨h1, h2, h3⟩ := sessionBefore_tight hx hax
              exact hacc' ((sessionBefore_congr h1 h2 h3).mp htr)
          · exact hrest t h

lemma selectActiveSession_mem {l : List TrackedSession} {r : TrackedSession}
    (h : selectActiveSession l = some r) : r ∈ l := by
  cases l with
  | nil => simp [selectActiveSession] at h
  | cons s rest =>
      simp only [selectActiveSession, Option.some.injEq] at h
      subst h
      obtain ⟨hmem, -, -⟩ := foldl_pickBetter_spec rest s
      rcases hmem with hm | hm
      · rw [hm]; exact List.mem_cons_self s rest
      · exact List.mem_cons_of_mem s hm

lemma selectActiveSession_optimal {l : List TrackedSession} {r : TrackedSession}
    (h : selectActiveSession l = some r) : ∀ t ∈ l, ¬ sessionBefore t r := by
  cases l with
  | nil => simp [selectActiveSession] at h
  | cons s rest =>
      simp only [selectActiveSession, Option.some.injEq] at h
      subst h
      obtain ⟨-, hacc, hrest⟩ := foldl_pickBetter_spec rest s
      intro t ht
      rcases List.mem_cons.mp ht with hm | hm
      · exact hm ▸ hacc
      · exact hrest t hm

lemma selectActiveSession_minRank {l : List TrackedSession} {r : TrackedSession}
    (h : selectActiveSession l = some r) :
    ∀ t ∈ l, statusRank r.lastEmitted.playbackStatus ≤ statusRank t.lastEmitted.playbackStatus := by
  intro t ht
  have := selectActiveSession_optimal h t ht
  unfold sessionBefore at this
  by_contra hlt
  exact this (Or.inl (by omega))

/- ## Debouncer lemmas -/

lemma onlyPlayheadDiff_refl (a : MediaInfo) : onlyPlayheadDiff a a :=
  ⟨rfl, rfl, rfl, rfl, rfl, rfl, rfl, rfl, rfl, rfl, rfl⟩

lemma find?_updateSessions (l : List TrackedSession) (key : SessionKey) (info : MediaInfo)
    (now : Nat) :
    ∃ e, (updateSessions l key info now).find? (fun s => s.key == key) = some e
      ∧ e.key = key ∧ e.lastEmitted = info ∧ e.lastEmittedAt = now := by
  induction l with
  | nil =>
      refine ⟨⟨key, info, now, 0⟩, ?_, rfl, rfl, rfl⟩
      simp [updateSessions]
  | cons s rest ih =>
      by_cases hs : s.key = key
      · refine ⟨{ s with lastEmitted := info, lastEmittedAt := now }, ?_, hs, rfl, rfl⟩
        simp [updateSessions, hs]
      · obtain ⟨e, hfind, hk, hi, ht⟩ := ih
        refine ⟨e, ?_, hk, hi, ht⟩
        have : (s.key == key) = false := by
          simp [hs]
        simp [updateSessions, hs, List.find?, this, hfind]

lemma recordEmission_window (st : EngineState) (key : SessionKey) (info : MediaInfo)
    (now : Nat) : (recordEmission st key info now).debounceWindow = st.debounceWindow :=
  rfl

/- ## Boundary-struct lemmas for the year field -/

lemma cinfo_eq_of_dropYear {a b : CMediaInfo} (h : dropYearC a = dropYearC b)
    (hy : a.year = b.year) : a = b := by
  cases a; cases b
  simp only [dropYearC, CMediaInfo.mk.injEq] at h ⊢
  simp_all

/- ## Concrete fixtures for witnesses -/

/-- A concrete paused session. -/
def cSessPaused : TrackedSession :=
  ⟨[1], { baseInfo with playbackStatus := .paused }, 5, 0⟩

/-- A concrete transitioning session. -/
def cSessTrans : TrackedSession :=
  ⟨[2], { baseInfo with playbackStatus := .transitioning }, 3, 0⟩

/-- A concrete playing session. -/
def cSessPlaying : TrackedSession :=
  ⟨[19], { baseInfo with playbackStatus := .playing }, 10, 0⟩

/-- A second playing session tied with `cSessPlaying` on rank and timestamp
but with a lexicographically larger key. -/
def cSessPlayingLate : TrackedSession :=
  ⟨[26], { baseInfo with playbackStatus := .playing }, 10, 0⟩

/-- A backend supporting and acknowledging every control. -/
def beAll : BackendModel := ⟨fun _ => true, fun _ => true⟩

/-- An engine state with no sessions and no active key. -/
def stEmpty : EngineState := ⟨[], none, 200⟩

/-- An engine state with one active playing session. -/
def stActive : EngineState := ⟨[cSessPlaying], some [19], 200⟩

/- ## Claims -/

/-- C1: the Session Arbiter orders candidates by playback-status rank with
Playing=0, Transitioning=1, Paused=2, Stopped=3, lower rank winning: the
selected session's rank is minimal, so a Playing session is selected over
all others and a Transitioning session over any Paused or Stopped one, on
every non-empty session map. -/
theorem c1_arbiter_rank_priority :
    (statusRank .playing = 0 ∧ statusRank .transitioning = 1
      ∧ statusRank .paused = 2 ∧ statusRank .stopped = 3)
    ∧ (∀ s rest, (selectActiveSession (s :: rest)).isSome = true)
    ∧ (∀ l r, selectActiveSession l = some r → ∀ t ∈ l,
        statusRank r.lastEmitted.playbackStatus ≤ statusRank t.lastEmitted.playbackStatus)
    ∧ (∀ l r t, selectActiveSession l = some r → t ∈ l →
        t.lastEmitted.playbackStatus = .playing →
        r.lastEmitted.playbackStatus = .playing)
    ∧ (∀ l r t, selectActiveSession l = some r → t ∈ l →
        t.lastEmitted.playbackStatus = .transitioning →
        r.lastEmitted.playbackStatus ≠ .paused ∧ r.lastEmitted.playbackStatus ≠ .stopped) := by
  refine ⟨⟨rfl, rfl, rfl, rfl⟩, ?_, ?_, ?_, ?_⟩
  · intro s rest
    simp [selectActiveSession]
  · intro l r h t ht
    exact selectActiveSession_minRank h t ht
  · intro l r t h ht hp
    have := selectActiveSession_minRank h t ht
    rw [hp] at this
    cases hr : r.lastEmitted.playbackStatus <;> rw [hr] at this <;>
      simp [statusRank] at this ⊢
  · intro l r t h ht hp
    have := selectActiveSession_minRank h t ht
    rw [hp] at this
    constructor <;> intro hr <;> rw [hr] at this <;> simp [statusRank] at this

/-- Witness for C1 at concrete inputs: among a paused and a transitioning
session the transitioning one is selected; adding a playing session makes
the playing one win. -/
theorem c1_witness :
    cSessTrans.lastEmitted.playbackStatus ≠ MediaPlaybackStatus.paused
    ∧ cSessTrans.lastEmitted.playbackStatus ≠ MediaPlaybackStatus.stopped
    ∧ cSessPlaying.lastEmitted.playbackStatus = MediaPlaybackStatus.playing := by
  refine ⟨(c1_arbiter_rank_priority.2.2.2.2 [cSessPaused, cSessTrans] cSessTrans cSessTrans
      (by decide) (by decide) rfl).1,
    (c1_arbiter_rank_priority.2.2.2.2 [cSessPaused, cSessTrans] cSessTrans cSessTrans
      (by decide) (by decide) rfl).2,
    c1_arbiter_rank_priority.2.2.2.1 [cSessPaused, cSessTrans, cSessPlaying] cSessPlaying
      cSessPlaying (by decide) (by decide) rfl⟩

/-- C6: `selectActive` is a deterministic total function of the session map:
`none` on the empty map, the same result on repeated calls, and the chosen
session is a member whose rank is minimal, whose `lastEmittedAt` is maximal
among rank ties, and whose key is lexicographically least among full ties. -/
theorem c6_selectActive_deterministic :
    selectActive [] = none
    ∧ (∀ l, selectActive l = selectActive l)
    ∧ (∀ l r, selectActiveSession l = some r → r ∈ l ∧ selectActive l = some r.key)
    ∧ (∀ l r, selectActiveSession l = some r → ∀ t ∈ l,
        statusRank r.lastEmitted.playbackStatus ≤ statusRank t.lastEmitted.playbackStatus)
    ∧ (∀ l r, selectActiveSession l = some r → ∀ t ∈ l,
        statusRank t.lastEmitted.playbackStatus = statusRank r.lastEmitted.playbackStatus →
        t.lastEmittedAt ≤ r.lastEmittedAt)
    ∧ (∀ l r, selectActiveSession l = some r → ∀ t ∈ l,
        statusRank t.lastEmitted.playbackStatus = statusRank r.lastEmitted.playbackStatus →
        t.lastEmittedAt = r.lastEmittedAt → keyLtb t.key r.key = false) := by
  refine ⟨rfl, fun l => rfl, ?_, ?_, ?_, ?_⟩
  · intro l r h
    refine ⟨selectActiveSession_mem h, ?_⟩
    simp [selectActive, h]
  · intro l r h t ht
    exact selectActiveSession_minRank h t ht
  · intro l r h t ht hrank
    have hopt := selectActiveSession_optimal h t ht
    unfold sessionBefore at hopt
    by_contra hlt
    exact hopt (Or.inr ⟨hrank, Or.inl (by omega)⟩)
  · intro l r h t ht hrank htime
    have hopt := selectActiveSession_optimal h t ht
    unfold sessionBefore at hopt
    by_contra hk
    have hk' : keyLtb t.key r.key = true := by
      revert hk; cases keyLtb t.key r.key <;> simp
    exact hopt (Or.inr ⟨hrank, Or.inr ⟨htime, hk'⟩⟩)

/-- Witness for C6 at concrete inputs: with two playing sessions tied on
rank and timestamp, the lexicographically smaller key "spotify" beats
"zune"; with distinct ranks the transitioning session beats the paused
one on rank. -/
theorem c6_witness :
    cSessPlaying ∈ [cSessPlayingLate, cSessPlaying]
    ∧ selectActive [cSessPlayingLate, cSessPlaying] = some cSessPlaying.key
    ∧ keyLtb cSessPlayingLate.key cSessPlaying.key = false
    ∧ statusRank cSessTrans.lastEmitted.playbackStatus
        ≤ statusRank cSessPaused.lastEmitted.playbackStatus := by
  refine ⟨(c6_selectActive_deterministic.2.2.1 [cSessPlayingLate, cSessPlaying] cSessPlaying
      (by decide)).1,
    (c6_selectActive_deterministic.2.2.1 [cSessPlayingLate, cSessPlaying] cSessPlaying
      (by decide)).2,
    c6_selectActive_deterministic.2.2.2.2.2 [cSessPlayingLate, cSessPlaying] cSessPlaying
      (by decide) cSessPlayingLate (by decide) (by decide) (by decide),
    c6_selectActive_deterministic.2.2.2.1 [cSessPaused, cSessTrans] cSessTrans
      (by decide) cSessPaused (by decide)⟩

/-- An engine state holding one previously emitted snapshot for key `[5]`,
with a 200 ms debounce window. -/
def stDebounce : EngineState := ⟨[⟨[5], baseInfo, 0, 0⟩], none, 200⟩

/-- The same state with a zero debounce window. -/
def stDebounceZero : EngineState := ⟨[⟨[5], baseInfo, 0, 0⟩], none, 0⟩

/-- A snapshot differing from `baseInfo` only in playback status. -/
def infoPausedNow : MediaInfo := { baseInfo with playbackStatus := .paused }

/-- A snapshot differing from `baseInfo` only in position. -/
def infoTick : MediaInfo := { baseInfo with position := 1 }

/-- C2: every `CMediaInfo` snapshot the boundary adapter produces satisfies
the artwork invariant: `has_artwork` is true exactly when `artwork_len > 0`
and the artwork byte sequence is present (non-empty), matching the
engine-level `hasArtwork` flag. -/
theorem c2_artwork_invariant : ∀ m : MediaInfo,
    ((toCMediaInfo m).has_artwork = true ↔
      ((toCMediaInfo m).artwork_len > 0 ∧ (toCMediaInfo m).artwork ≠ []))
    ∧ (toCMediaInfo m).has_artwork = m.hasArtwork
    ∧ (toCMediaInfo m).artwork_len = (toCMediaInfo m).artwork.length := by
  intro m
  refine ⟨?_, rfl, rfl⟩
  simp [toCMediaInfo, List.length_pos]

/-- C3: with no active session, every control operation returns `NoSession`
and leaves the `EngineState` unchanged (volume restricted to in-range
levels, which reach the session check rather than the argument check). -/
theorem c3_no_session (be : BackendModel) (st : EngineState)
    (h : activeSession st = none) :
    media_sessions_c_play be st = (.noSession, st)
    ∧ media_sessions_c_pause be st = (.noSession, st)
    ∧ media_sessions_c_play_pause be st = (.noSession, st)
    ∧ media_sessions_c_stop be st = (.noSession, st)
    ∧ media_sessions_c_next be st = (.noSession, st)
    ∧ media_sessions_c_previous be st = (.noSession, st)
    ∧ (∀ pos, media_sessions_c_seek be st pos = (.noSession, st))
    ∧ (∀ level : ℚ, 0 ≤ level → level ≤ 1 →
        media_sessions_c_set_volume be st level = (.noSession, st))
    ∧ (∀ mode, media_sessions_c_set_repeat_mode be st mode = (.noSession, st))
    ∧ (∀ enabled, media_sessions_c_set_shuffle be st enabled = (.noSession, st)) := by
  have hr : ∀ op, routeControl be op st = (.noSession, st) := by
    intro op
    unfold routeControl
    rw [h]
  refine ⟨hr _, hr _, hr _, hr _, hr _, hr _, fun pos => hr _, ?_, fun mode => hr _,
    fun enabled => hr _⟩
  intro level h0 h1
  unfold media_sessions_c_set_volume
  rw [if_neg (by push_neg; exact ⟨h0, h1⟩), hr _]

/-- Witness for C3 at concrete inputs: on the empty engine state, `play` and
an in-range `setVolume` both report `NoSession` without touching the state. -/
theorem c3_witness :
    media_sessions_c_play beAll stEmpty = (MediaResult.noSession, stEmpty)
    ∧ media_sessions_c_set_volume beAll stEmpty (1 / 2) = (MediaResult.noSession, stEmpty) :=
  ⟨(c3_no_session beAll stEmpty rfl).1,
    (c3_no_session beAll stEmpty rfl).2.2.2.2.2.2.2.1 (1 / 2) (by norm_num) (by norm_num)⟩

/-- C4: `setVolume` rejects any level strictly below 0 or strictly above 1
with `InvalidArgument` and an unchanged state, while the boundary values 0
and 1 are accepted and return `Ok` when an active session exists and the
backend supports (and acknowledges) the volume control. -/
theorem c4_volume_range :
    (∀ (be : BackendModel) (st : EngineState) (level : ℚ), level < 0 ∨ 1 < level →
      media_sessions_c_set_volume be st level = (.invalidArg, st))
    ∧ (∀ (be : BackendModel) (st : EngineState) (s : TrackedSession),
        activeSession st = some s → be.supports .setVolume = true →
        be.acks .setVolume = true →
        (media_sessions_c_set_volume be st 0).1 = .ok
        ∧ (media_sessions_c_set_volume be st 1).1 = .ok) := by
  constructor
  · intro be st level hout
    unfold media_sessions_c_set_volume
    rw [if_pos hout]
  · intro be st s hact hs ha
    constructor <;>
      · unfold media_sessions_c_set_volume
        rw [if_neg (by norm_num)]
        unfold routeControl
        rw [hact]
        simp [hs, ha]

/-- Witness for C4 at concrete inputs: `setVolume 2` is rejected with
`InvalidArgument`; `setVolume 0` and `setVolume 1` return `Ok` on a state
with an active playing session and a fully capable backend. -/
theorem c4_witness :
    media_sessions_c_set_volume beAll stActive 2 = (MediaResult.invalidArg, stActive)
    ∧ (media_sessions_c_set_volume beAll stActive 0).1 = MediaResult.ok
    ∧ (media_sessions_c_set_volume beAll stActive 1).1 = MediaResult.ok :=
  ⟨c4_volume_range.1 beAll stActive 2 (Or.inr (by norm_num)),
    (c4_volume_range.2 beAll stActive cSessPlaying (by decide) rfl rfl).1,
    (c4_volume_range.2 beAll stActive cSessPlaying (by decide) rfl rfl).2⟩

/-- C5: the Debouncer suppresses a snapshot for a key exactly when the time
since the key's last emission is inside the debounce window and the snapshot
differs from the last emitted one only in position/duration; a change to
title, artist, album, playback status or artwork always emits; a zero window
disables all suppression; and resubmitting a just-emitted snapshot inside
the window is suppressed, so two identical submissions yield one emission. -/
theorem c5_debounce_policy :
    (∀ (st : EngineState) (key : SessionKey) (e : TrackedSession) (info : MediaInfo) (now : Nat),
      st.sessions.find? (fun s => s.key == key) = some e →
      (shouldEmit st key info now = false ↔
        (now - e.lastEmittedAt < st.debounceWindow ∧ onlyPlayheadDiff info e.lastEmitted)))
    ∧ (∀ (st : EngineState) (key : SessionKey) (e : TrackedSession) (info : MediaInfo)
        (now : Nat),
        st.sessions.find? (fun s => s.key == key) = some e →
        (info.title ≠ e.lastEmitted.title ∨ info.artist ≠ e.lastEmitted.artist
          ∨ info.album ≠ e.lastEmitted.album
          ∨ info.playbackStatus ≠ e.lastEmitted.playbackStatus
          ∨ info.artwork ≠ e.lastEmitted.artwork) →
        shouldEmit st key info now = true)
    ∧ (∀ (st : EngineState) (key : SessionKey) (info : MediaInfo) (now : Nat),
        st.debounceWindow = 0 → shouldEmit st key info now = true)
    ∧ (∀ (st : EngineState) (key : SessionKey) (info : MediaInfo) (t now : Nat),
        now - t < st.debounceWindow →
        submit (recordEmission st key info t) key info now
          = (false, recordEmission st key info t))
    ∧ (∀ (st : EngineState) (key : SessionKey) (info : MediaInfo) (t now : Nat),
        shouldEmit st key info t = true → now - t < st.debounceWindow →
        submit (submit st key info t).2 key info now = (false, (submit st key info t).2)) := by
  have key4 : ∀ (st : EngineState) (key : SessionKey) (info : MediaInfo) (t now : Nat),
      now - t < st.debounceWindow →
      submit (recordEmission st key info t) key info now
        = (false, recordEmission st key info t) := by
    intro st key info t now hlt
    obtain ⟨e, hfind, hk, hi, htt⟩ := find?_updateSessions st.sessions key info t
    have hse : shouldEmit (recordEmission st key info t) key info now = false := by
      unfold shouldEmit recordEmission
      rw [hfind]
      simp [hi, htt, hlt, onlyPlayheadDiff_refl]
    simp [submit, hse]
  refine ⟨?_, ?_, ?_, key4, ?_⟩
  · intro st key e info now h
    unfold shouldEmit
    rw [h]
    simp
  · intro st key e info now h hne
    have hdiff : ¬ onlyPlayheadDiff info e.lastEmitted := by
      intro hc
      obtain ⟨h1, h2, h3, h4, h5, -⟩ := hc
      rcases hne with hn | hn | hn | hn | hn <;> exact hn (by assumption)
    unfold shouldEmit
    rw [h]
    simp [hdiff]
  · intro st key info now hw
    unfold shouldEmit
    cases hf : st.sessions.find? (fun s => s.key == key) with
    | none => rfl
    | some e => simp [hw]
  · intro st key info t now hemit hlt
    have h2 : (submit st key info t).2 = recordEmission st key info t := by
      simp [submit, hemit]
    rw [h2]
    exact key4 st key info t now hlt

/-- Witness for C5 at concrete inputs: a pure position tick 100 ms after an
emission inside a 200 ms window is suppressed; a playback-status change at
the same moment emits; with a zero window even the identical snapshot
emits; and resubmitting an accepted snapshot 50 ms later is suppressed. -/
theorem c5_witness :
    shouldEmit stDebounce [5] infoTick 100 = false
    ∧ shouldEmit stDebounce [5] infoPausedNow 100 = true
    ∧ shouldEmit stDebounceZero [5] baseInfo 100 = true
    ∧ submit (submit stEmpty [7] baseInfo 0).2 [7] baseInfo 50
        = (false, (submit stEmpty [7] baseInfo 0).2) :=
  ⟨(c5_debounce_policy.1 stDebounce [5] ⟨[5], baseInfo, 0, 0⟩ infoTick 100 (by decide)).mpr
      ⟨by decide, by decide⟩,
    c5_debounce_policy.2.1 stDebounce [5] ⟨[5], baseInfo, 0, 0⟩ infoPausedNow 100 (by decide)
      (Or.inr (Or.inr (Or.inr (Or.inl (by decide))))),
    c5_debounce_policy.2.2.1 stDebounceZero [5] baseInfo 100 rfl,
    c5_debounce_policy.2.2.2.2 stEmpty [7] baseInfo 0 50 rfl (by decide)⟩

/-- C7 counterexample: the boundary struct's `year` field (a bare signed
integer, no presence flag) cannot make an absent year observable: no
adapter that encodes the year only in the `year` field and reports every
known year verbatim admits a reader recovering year-presence, because the
snapshot with no year and the snapshot whose year equals the adapter's
output for "absent" map to the same `CMediaInfo`. -/
theorem c7_counterexample : ¬ yearAbsenceObservable := by
  rintro ⟨toC, hasYear, hobl, hfaith, hflag⟩
  have heq : toC (setYear baseInfo none)
      = toC (setYear baseInfo (some ((toC (setYear baseInfo none)).year))) :=
    cinfo_eq_of_dropYear (hobl baseInfo none _) (hfaith baseInfo _).symm
  have h0 := hflag (setYear baseInfo none)
  have h1 := hflag (setYear baseInfo (some ((toC (setYear baseInfo none)).year)))
  rw [← heq] at h1
  simp [setYear] at h0 h1
  rw [h0] at h1
  exact Bool.false_ne_true h1

/-- C7 (amended): `CMediaInfo` carries `year` as a plain signed integer with
no presence flag, so any year-oblivious adapter that reports known years
verbatim collapses the year-absent snapshot and the snapshot whose year
equals the adapter's default into the same boundary struct: absence is not
distinguishable from that year value at the boundary. -/
theorem c7_year_collision (toC : MediaInfo → CMediaInfo)
    (hobl : yearOblivious toC) (hfaith : yearFaithful toC) (m : MediaInfo) :
    toC (setYear m none) = toC (setYear m (some ((toC (setYear m none)).year))) :=
  cinfo_eq_of_dropYear (hobl m none _) (hfaith m _).symm

/-- Witness for C7 at a concrete input: the canonical adapter (which
defaults an absent year to 0) maps the year-absent snapshot and the
year-zero snapshot to identical boundary structs. -/
theorem c7_witness :
    toCMediaInfo (setYear baseInfo none)
      = toCMediaInfo (setYear baseInfo (some ((toCMediaInfo (setYear baseInfo none)).year))) :=
  c7_year_collision toCMediaInfo (fun m y₁ y₂ => rfl) (fun m y => rfl) baseInfo

/-- C8: handles are fully isolated: any sequence of operations performed
through handle A leaves the engine state of any other handle B unchanged
(and hence B's queries), and both mutations and queries through A depend
only on A's own engine state (two-run noninterference). -/
theorem c8_handle_isolation :
    (∀ (p : ProcState) (A B : Nat) (ops : List (EngineState → EngineState)), A ≠ B →
      runOps p A ops B = p B)
    ∧ (∀ (p : ProcState) (A B : Nat) (ops : List (EngineState → EngineState))
        (q : EngineState → Option MediaInfo), A ≠ B →
        queryOnHandle (runOps p A ops) B q = queryOnHandle p B q)
    ∧ (∀ (p p' : ProcState) (A : Nat) (ops : List (EngineState → EngineState)),
        p A = p' A → runOps p A ops A = runOps p' A ops A)
    ∧ (∀ (p p' : ProcState) (A : Nat) (q : EngineState → Option MediaInfo),
        p A = p' A → queryOnHandle p A q = queryOnHandle p' A q) := by
  have loc : ∀ (ops : List (EngineState → EngineState)) (p : ProcState) (A B : Nat),
      A ≠ B → runOps p A ops B = p B := by
    intro ops
    induction ops with
    | nil => intro p A B hne; rfl
    | cons f fs ih =>
        intro p A B hne
        have := ih (applyOnHandle p A f) A B hne
        rw [runOps, this, applyOnHandle, if_neg (fun hb => hne hb.symm)]
  have run_eq : ∀ (ops : List (EngineState → EngineState)) (p p' : ProcState) (A : Nat),
      p A = p' A → runOps p A ops A = runOps p' A ops A := by
    intro ops
    induction ops with
    | nil => intro p p' A h; exact h
    | cons f fs ih =>
        intro p p' A h
        rw [runOps, runOps]
        apply ih
        rw [applyOnHandle, applyOnHandle, if_pos rfl, if_pos rfl, h]
  refine ⟨fun p A B ops => loc ops p A B, ?_, fun p p' A ops => run_eq ops p p' A, ?_⟩
  · intro p A B ops q hne
    unfold queryOnHandle
    rw [loc ops p A B hne]
  · intro p p' A q h
    unfold queryOnHandle
    rw [h]

/-- A two-handle process state: handle 0 holds the empty engine state,
handle 1 the active-session state. -/
def pTwo : ProcState := fun h => if h = 0 then some stEmpty else some stActive

/-- A process state agreeing with `pTwo` on handle 0 only. -/
def pOther : ProcState := fun h => if h = 0 then some stEmpty else none

/-- One concrete mutation sequence: shrink the debounce window. -/
def cOps : List (EngineState → EngineState) := [fun st => { st with debounceWindow := 5 }]

/-- Witness for C8 at concrete inputs: running operations through handle 0
leaves handle 1's state untouched, and a query through handle 0 cannot tell
`pTwo` from a process state that differs only at other handles. -/
theorem c8_witness :
    runOps pTwo 0 cOps 1 = pTwo 1
    ∧ queryOnHandle pTwo 0 current = queryOnHandle pOther 0 current :=
  ⟨c8_handle_isolation.1 pTwo 0 1 cOps (by decide),
    c8_handle_isolation.2.2.2 pTwo pOther 0 current rfl⟩

/-- C9: `current()` (and its boundary form) returns absent exactly when no
session is active; otherwise it returns the active session's last accepted
snapshot; and a suppressed (debounced) submission leaves the engine state —
hence `current()`'s answer — unchanged, so no suppressed snapshot is ever
reflected. -/
theorem c9_current :
    (∀ st, current st = none ↔ activeSession st = none)
    ∧ (∀ st, media_sessions_c_current st = none ↔ activeSession st = none)
    ∧ (∀ st s, activeSession st = some s →
        current st = some s.lastEmitted
        ∧ media_sessions_c_current st = some (toCMediaInfo s.lastEmitted))
    ∧ (∀ (st : EngineState) (key : SessionKey) (info : MediaInfo) (now : Nat),
        shouldEmit st key info now = false → engineSubmit st key info now = st) := by
  refine ⟨?_, ?_, ?_, ?_⟩
  · intro st
    simp [current, Option.map_eq_none']
  · intro st
    simp [media_sessions_c_current, current, Option.map_eq_none']
  · intro st s h
    constructor
    · simp [current, h]
    · simp [media_sessions_c_current, current, h]
  · intro st key info now h
    simp [engineSubmit, h]

/-- Witness for C9 at concrete inputs: on the active-session state,
`current` returns the playing session's snapshot; a position tick suppressed
by the debouncer leaves the engine state unchanged. -/
theorem c9_witness :
    current stActive = some cSessPlaying.lastEmitted
    ∧ engineSubmit stDebounce [5] infoTick 100 = stDebounce :=
  ⟨((c9_current.2.2.1 stActive cSessPlaying (by decide)).1),
    c9_current.2.2.2 stDebounce [5] infoTick 100 (by decide)⟩

/-- C10: `media_sessions_c_platform` is a constant function of the build
platform: every call returns the same string, that string is exactly one of
"windows", "linux", "macos" or "unknown", and it is never the empty
(null-like) string.  Pointer lifetime is outside the embedding. -/
theorem c10_platform_constant : ∀ (p : Platform) (n m : Nat),
    media_sessions_c_platform p n = media_sessions_c_platform p m
    ∧ (media_sessions_c_platform p n = "windows" ∨ media_sessions_c_platform p n = "linux"
        ∨ media_sessions_c_platform p n = "macos"
        ∨ media_sessions_c_platform p n = "unknown")
    ∧ media_sessions_c_platform p n ≠ "" := by
  intro p n m
  refine ⟨rfl, ?_, ?_⟩ <;> cases p <;> simp [media_sessions_c_platform, platformName]
